import Mathlib

/-!
Verification development for the `mcp-server-bluesky-py` repository.

Part 1 embeds `mcp_wrapper.py`, the stdin/stdout byte-level proxy that
spawns the tool server and strips carriage returns from its output.
Part 2 embeds the pure data-shaping logic of `bluesky_mcp.py`: the
duck-typed field lookup helper, the post/notification formatters, the
reply thread-reference computation, the page-size clamps, the credential
check and the per-tool success/failure envelopes.

Bytes are modelled as `Nat` (the proxy reads one byte at a time), byte
streams as `List Nat`, machine integers as `Int`, heterogeneous Python
values as the inductive type `Val` below, and fallible remote calls as
`Except String` values (the `String` is the exception detail `str(e)`).
-/

/-! ### mcp_wrapper.py -/

/-- `forward_stdin` (mcp_wrapper.py lines 28-43): reads one byte at a time
from the host's stdin and writes each byte to the child's stdin unaltered,
flushing after every byte, until end-of-stream.  Modelled as a function on
the finite byte sequence read before end-of-stream. -/
def forward_stdin : List Nat → List Nat
  | [] => []
  | b :: rest => b :: forward_stdin rest

/-- `forward_stdout` (mcp_wrapper.py lines 45-57): reads one byte at a time
from the child's stdout; writes the byte to the host's stdout unless it is
`b'\r'` (0x0D = 13), which is skipped. -/
def forward_stdout : List Nat → List Nat
  | [] => []
  | b :: rest => if b ≠ 13 then b :: forward_stdout rest else forward_stdout rest

/-- Spec-side description of the child→host filter: the input stream with
every 0x0D byte removed and all other bytes kept in order. -/
def crStripSpec (input : List Nat) : List Nat :=
  input.filter (fun b => decide (b ≠ 13))

/-- `main` (mcp_wrapper.py lines 59-68 together with lines 11-24): spawns
the child, runs both pumps, then calls `process.wait()` and
`stdout_thread.join(timeout=1)` and returns.  The value of
`process.wait()` — the child's exit code — is discarded: `main` never
calls `sys.exit`, so the interpreter exits with status 0 regardless of the
child's exit status. -/
def wrapper_exit_code (child_exit_code : Int) : Int :=
  let _returncode := child_exit_code
  0

theorem forward_stdout_eq_filter (input : List Nat) :
    forward_stdout input = input.filter (fun b => decide (b ≠ 13)) := by
  induction input with
  | nil => rfl
  | cons b rest ih =>
    by_cases hb : b = 13
    · simp [forward_stdout, hb, ih]
    · simp [forward_stdout, hb, ih]

/-- C1: the child→host filter writes exactly the input byte sequence with
every 0x0D byte removed; every other byte passes through unchanged and in
its original relative order. -/
theorem c1_stdout_strips_cr (input : List Nat) :
    forward_stdout input = crStripSpec input ∧
    (13 : Nat) ∉ forward_stdout input ∧
    List.Sublist (forward_stdout input) input := by
  refine ⟨forward_stdout_eq_filter input, ?_, ?_⟩
  · rw [forward_stdout_eq_filter]
    intro hmem
    have := List.of_mem_filter hmem
    simp at this
  · rw [forward_stdout_eq_filter]
    exact List.filter_sublist input

/-- C2: the host→child pump writes to the child exactly the bytes read
from the host, unaltered (identity on the byte stream). -/
theorem c2_stdin_identity (input : List Nat) :
    forward_stdin input = input := by
  induction input with
  | nil => rfl
  | cons b rest ih => simp [forward_stdin, ih]

/-- C9: the carriage-return-strip filter is idempotent: applying it to its
own output yields the same result as applying it once. -/
theorem c9_cr_strip_idempotent (input : List Nat) :
    forward_stdout (forward_stdout input) = forward_stdout input := by
  induction input with
  | nil => rfl
  | cons b rest ih =>
    by_cases hb : b = 13
    · simp [forward_stdout, hb, ih]
    · simp [forward_stdout, hb, ih]

/-- C4 counterexample: with a child exit status of 1, the proxy's exit
code is 0, not 1 — `main` discards the result of `process.wait()` and
returns without calling `sys.exit`, so the claim that the proxy's exit
code equals the child's exit code for every child exit status is false. -/
theorem c4_counterexample :
    wrapper_exit_code 1 = 0 ∧ wrapper_exit_code 1 ≠ 1 := by
  constructor
  · rfl
  · decide

/-- C4 amended: when the proxy terminates normally its process exit code
is 0 for every child exit status (the child's exit code is discarded). -/
theorem c4_amended_exit_code_always_zero (child_exit_code : Int) :
    wrapper_exit_code child_exit_code = 0 := rfl

/-! ### bluesky_mcp.py: heterogeneous values and field access

The formatters accept both atproto model objects (attribute access) and
plain dicts (key access); fields may be absent, aliased (`snake_case` vs
`camelCase`) or nested.  `Val` models the Python values flowing through
them: `Val.obj` is an attribute-style object, `Val.dict` a mapping.
Field order in `Val.dict` models Python's insertion-ordered dict. -/

inductive Val where
  | null
  | str (s : String)
  | int (n : Int)
  | bool (b : Bool)
  | list (xs : List Val)
  | obj (fields : List (String × Val))
  | dict (fields : List (String × Val))

/-- First-match association-list lookup (Python `dict` key lookup /
`getattr` attribute lookup, absent key mapped to `none`). -/
def alookup : List (String × Val) → String → Option Val
  | [], _ => none
  | (k, v) :: rest, key => if k = key then some v else alookup rest key

/-- Raw `getattr(obj, attr, default)`: attribute lookup on an
attribute-style object; every other value (including a dict, whose keys
are not attributes) yields the default. -/
def getattrV (v : Val) (attr : String) (dflt : Val) : Val :=
  match v with
  | Val.obj fs => (alookup fs attr).getD dflt
  | _ => dflt

/-- The local helper `get(obj, attr, default)` used by `format_post` and
`format_notification` (bluesky_mcp.py lines 112-115 and 179-182):
`obj.get(attr, default)` when `obj` is a dict, `getattr(obj, attr,
default)` otherwise. -/
def getV (v : Val) (attr : String) (dflt : Val) : Val :=
  match v with
  | Val.dict fs => (alookup fs attr).getD dflt
  | _ => getattrV v attr dflt

/-- Python `hasattr`: true only for attribute-style objects carrying the
attribute (a dict's keys are not attributes). -/
def hasattrB (v : Val) (attr : String) : Bool :=
  match v with
  | Val.obj fs => (alookup fs attr).isSome
  | _ => false

/-- Whether the value carries the field at all, under dict-key or
object-attribute access (used to state "the source lacks the field"). -/
def hasKey (v : Val) (k : String) : Bool :=
  match v with
  | Val.dict fs => (alookup fs k).isSome
  | Val.obj fs => (alookup fs k).isSome
  | _ => false

/-- Python truthiness of the modelled values (`None`, `""`, `0`, `False`,
empty list and empty dict are falsy; model objects are truthy). -/
def truthy : Val → Bool
  | Val.null => false
  | Val.str s => !(s == "")
  | Val.int n => !(n == 0)
  | Val.bool b => b
  | Val.list xs => !xs.isEmpty
  | Val.obj _ => true
  | Val.dict fs => !fs.isEmpty

/-- Python `a or b` on values: `a` when truthy, else `b`. -/
def pyOr (a b : Val) : Val := if truthy a then a else b

/-- Approximation of Python `str()` used only in the
`"external" in str(embed_type)` membership tests; exact on the strings and
`None` values that reach it in practice, opaque on containers. -/
def valStr : Val → String
  | Val.null => "None"
  | Val.str s => s
  | Val.int n => toString n
  | Val.bool b => cond b "True" "False"
  | Val.list _ => "<list>"
  | Val.obj _ => "<object>"
  | Val.dict _ => "<dict>"

def listStarts : List Char → List Char → Bool
  | [], _ => true
  | _ :: _, [] => false
  | a :: as, b :: bs => a == b && listStarts as bs

def listInfixB (pat : List Char) : List Char → Bool
  | [] => pat.isEmpty
  | c :: rest => listStarts pat (c :: rest) || listInfixB pat rest

/-- Python `pat in s` substring test. -/
def strContains (s pat : String) : Bool := listInfixB pat.toList s.toList

/-- Keys of a dict value, in insertion order (empty for non-dicts). -/
def keysOf : Val → List String
  | Val.dict fs => fs.map Prod.fst
  | _ => []

/-- Lookup of a key in a dict value (inspecting formatter output). -/
def getField (v : Val) (k : String) : Option Val :=
  match v with
  | Val.dict fs => alookup fs k
  | _ => none

theorem getV_of_not_hasKey (v : Val) (k : String) (d : Val)
    (h : hasKey v k = false) : getV v k d = d := by
  cases v with
  | obj fs =>
    cases hh : alookup fs k with
    | none => simp [getV, getattrV, hh]
    | some w => simp [hasKey, hh] at h
  | dict fs =>
    cases hh : alookup fs k with
    | none => simp [getV, hh]
    | some w => simp [hasKey, hh] at h
  | null => rfl
  | str s => rfl
  | int n => rfl
  | bool b => rfl
  | list xs => rfl

theorem alookup_append (l₁ l₂ : List (String × Val)) (k : String) :
    alookup (l₁ ++ l₂) k =
      match alookup l₁ k with
      | some v => some v
      | none => alookup l₂ k := by
  induction l₁ with
  | nil => rfl
  | cons p rest ih =>
    by_cases hk : p.1 = k
    · simp [alookup, hk]
    · simp [alookup, hk, ih]

/-! ### bluesky_mcp.py: `format_post` and `format_notification` -/

/-- The unwrapping step of `format_post` (lines 106-109):
`post_data.get("post", post_data)` for dicts, `getattr(post_data, "post",
post_data)` otherwise. -/
def unwrap_post (post_data : Val) : Val :=
  getV post_data "post" post_data

/-- The `"author"` sub-record of `format_post` (lines 123-127). -/
def post_author_fields (author : Val) : List (String × Val) :=
  [("handle", getV author "handle" (Val.str "")),
   ("display_name",
     getV author "display_name"
       (getV author "displayName" (getV author "handle" (Val.str "")))),
   ("avatar", getV author "avatar" (Val.str ""))]

/-- The unconditional part of the `result` dict built by `format_post`
(lines 120-134). -/
def post_base_fields (post : Val) : List (String × Val) :=
  let author := getV post "author" Val.null
  let record := getV post "record" Val.null
  [("uri", getV post "uri" (Val.str "")),
   ("cid", getV post "cid" (Val.str "")),
   ("author", Val.dict (post_author_fields author)),
   ("text", getV record "text" (Val.str "")),
   ("created_at", getV record "created_at" (getV record "createdAt" (Val.str ""))),
   ("likes", getV post "like_count" (getV post "likeCount" (Val.int 0))),
   ("reposts", getV post "repost_count" (getV post "repostCount" (Val.int 0))),
   ("replies", getV post "reply_count" (getV post "replyCount" (Val.int 0))),
   ("indexed_at", getV post "indexed_at" (getV post "indexedAt" (Val.str "")))]

/-- The conditional `result["embed"]` assignment of `format_post`
(lines 136-157): when the post carries a truthy embed, a link card is
emitted if the embed's type string mentions `external` (or the embed object
has an `external` attribute), else an image list if it mentions `images`;
otherwise no `embed` key is added. -/
def post_embed_fields (post : Val) : List (String × Val) :=
  let embed := getV post "embed" Val.null
  if truthy embed then
    let embed_type := pyOr (getV embed "$type" Val.null)
      (getattrV embed "py_type" (Val.str ""))
    if strContains (valStr embed_type) "external" || hasattrB embed "external" then
      let external := getV embed "external" Val.null
      [("embed", Val.dict
        [("type", Val.str "link"),
         ("url", getV external "uri" (Val.str "")),
         ("title", getV external "title" (Val.str "")),
         ("description", getV external "description" (Val.str ""))])]
    else if strContains (valStr embed_type) "images" || hasattrB embed "images" then
      let images := getV embed "images" (Val.list [])
      let imgs := match images with | Val.list xs => xs | _ => []
      [("embed", Val.dict
        [("type", Val.str "images"),
         ("images", Val.list (imgs.map (fun img => Val.dict
           [("url", getV img "fullsize" (Val.str "")),
            ("alt", getV img "alt" (Val.str ""))])))])]
    else []
  else []

/-- The conditional `result["reply_to"]` assignment of `format_post`
(lines 159-172), taken only when `include_reply_context` is set and the
original feed item carries a truthy `reply` with a truthy `parent`. -/
def post_reply_fields (post_data : Val) (include_reply_context : Bool) :
    List (String × Val) :=
  if include_reply_context then
    let reply := getV post_data "reply" Val.null
    if truthy reply then
      let parent := getV reply "parent" Val.null
      if truthy parent then
        let parent_author := getV parent "author" Val.null
        let parent_record := getV parent "record" Val.null
        [("reply_to", Val.dict
          [("uri", getV parent "uri" (Val.str "")),
           ("author", getV parent_author "handle" (Val.str "")),
           ("text", getV parent_record "text" (Val.str ""))])]
      else []
    else []
  else []

/-- `format_post` (bluesky_mcp.py lines 103-174). -/
def format_post (post_data : Val) (include_reply_context : Bool) : Val :=
  let post := unwrap_post post_data
  Val.dict (post_base_fields post ++ post_embed_fields post ++
    post_reply_fields post_data include_reply_context)

/-- `format_notification` (bluesky_mcp.py lines 177-200). -/
def format_notification (notif : Val) : Val :=
  let author := getV notif "author" Val.null
  let record := getV notif "record" Val.null
  Val.dict
    [("uri", getV notif "uri" (Val.str "")),
     ("cid", getV notif "cid" (Val.str "")),
     ("reason", getV notif "reason" (Val.str "")),
     ("author", Val.dict
       [("handle", getV author "handle" (Val.str "")),
        ("display_name", getV author "display_name"
          (getV author "displayName" (Val.str "")))]),
     ("record_text", getV record "text" (Val.str "")),
     ("indexed_at", getV notif "indexed_at" (getV notif "indexedAt" (Val.str ""))),
     ("is_read", getV notif "is_read" (getV notif "isRead" (Val.bool false))),
     ("subject_uri", getV notif "reason_subject"
       (getV notif "reasonSubject" (Val.str "")))]

/-- The fixed key set every formatted post record carries, in order. -/
def postFixedKeys : List String :=
  ["uri", "cid", "author", "text", "created_at", "likes", "reposts",
   "replies", "indexed_at"]

/-- The fixed key set every formatted notification record carries. -/
def notifFixedKeys : List String :=
  ["uri", "cid", "reason", "author", "record_text", "indexed_at",
   "is_read", "subject_uri"]

theorem post_base_keys (post : Val) :
    (post_base_fields post).map Prod.fst = postFixedKeys := rfl

theorem format_post_keys (pd : Val) (irc : Bool) :
    keysOf (format_post pd irc) =
      postFixedKeys ++ ((post_embed_fields (unwrap_post pd)).map Prod.fst ++
        (post_reply_fields pd irc).map Prod.fst) := by
  simp [format_post, keysOf, post_base_keys]

theorem getField_format_post_of_base (pd : Val) (irc : Bool) (k : String)
    (v : Val) (h : alookup (post_base_fields (unwrap_post pd)) k = some v) :
    getField (format_post pd irc) k = some v := by
  simp [getField, format_post, alookup_append, h]

theorem alookup_base_author (post : Val) :
    alookup (post_base_fields post) "author" =
      some (Val.dict (post_author_fields (getV post "author" Val.null))) := by
  simp [post_base_fields, alookup]

theorem alookup_base_likes (post : Val) :
    alookup (post_base_fields post) "likes" =
      some (getV post "like_count" (getV post "likeCount" (Val.int 0))) := by
  simp [post_base_fields, alookup]

theorem alookup_base_reposts (post : Val) :
    alookup (post_base_fields post) "reposts" =
      some (getV post "repost_count" (getV post "repostCount" (Val.int 0))) := by
  simp [post_base_fields, alookup]

theorem alookup_base_replies (post : Val) :
    alookup (post_base_fields post) "replies" =
      some (getV post "reply_count" (getV post "replyCount" (Val.int 0))) := by
  simp [post_base_fields, alookup]

theorem alookup_base_indexed_at (post : Val) :
    alookup (post_base_fields post) "indexed_at" =
      some (getV post "indexed_at" (getV post "indexedAt" (Val.str ""))) := by
  simp [post_base_fields, alookup]

theorem alookup_base_created_at (post : Val) :
    alookup (post_base_fields post) "created_at" =
      some (getV (getV post "record" Val.null) "created_at"
        (getV (getV post "record" Val.null) "createdAt" (Val.str ""))) := by
  simp [post_base_fields, alookup]

theorem getField_notif_is_read (n : Val) :
    getField (format_notification n) "is_read" =
      some (getV n "is_read" (getV n "isRead" (Val.bool false))) := by
  simp [format_notification, getField, alookup]

theorem getField_notif_subject_uri (n : Val) :
    getField (format_notification n) "subject_uri" =
      some (getV n "reason_subject" (getV n "reasonSubject" (Val.str ""))) := by
  simp [format_notification, getField, alookup]

theorem getField_notif_author (n : Val) :
    getField (format_notification n) "author" =
      some (Val.dict
        [("handle", getV (getV n "author" Val.null) "handle" (Val.str "")),
         ("display_name", getV (getV n "author" Val.null) "display_name"
           (getV (getV n "author" Val.null) "displayName" (Val.str "")))]) := by
  simp [format_notification, getField, alookup]

/-- C7: every record produced by `format_post` carries the fixed post key
set as a prefix of its keys (so no fixed key is ever omitted, whatever the
input shape), its `author` sub-record always carries exactly its three
keys; every record produced by `format_notification` carries exactly the
fixed notification key set, its `author` sub-record exactly its two keys;
and when the source lacks a field under both its casing aliases the output
field is the type-appropriate default: 0 for the counters, the empty
string for the string fields, `false` for the read flag. -/
theorem c7_fixed_schema (pd : Val) (irc : Bool) (n : Val) :
    (∃ t, keysOf (format_post pd irc) = postFixedKeys ++ t)
    ∧ Option.map keysOf (getField (format_post pd irc) "author") =
        some ["handle", "display_name", "avatar"]
    ∧ keysOf (format_notification n) = notifFixedKeys
    ∧ Option.map keysOf (getField (format_notification n) "author") =
        some ["handle", "display_name"]
    ∧ (hasKey (unwrap_post pd) "like_count" = false →
       hasKey (unwrap_post pd) "likeCount" = false →
       getField (format_post pd irc) "likes" = some (Val.int 0))
    ∧ (hasKey (unwrap_post pd) "repost_count" = false →
       hasKey (unwrap_post pd) "repostCount" = false →
       getField (format_post pd irc) "reposts" = some (Val.int 0))
    ∧ (hasKey (unwrap_post pd) "reply_count" = false →
       hasKey (unwrap_post pd) "replyCount" = false →
       getField (format_post pd irc) "replies" = some (Val.int 0))
    ∧ (hasKey (unwrap_post pd) "indexed_at" = false →
       hasKey (unwrap_post pd) "indexedAt" = false →
       getField (format_post pd irc) "indexed_at" = some (Val.str ""))
    ∧ (hasKey (getV (unwrap_post pd) "record" Val.null) "created_at" = false →
       hasKey (getV (unwrap_post pd) "record" Val.null) "createdAt" = false →
       getField (format_post pd irc) "created_at" = some (Val.str ""))
    ∧ (hasKey n "is_read" = false → hasKey n "isRead" = false →
       getField (format_notification n) "is_read" = some (Val.bool false))
    ∧ (hasKey n "reason_subject" = false → hasKey n "reasonSubject" = false →
       getField (format_notification n) "subject_uri" = some (Val.str "")) := by
  refine ⟨⟨_, format_post_keys pd irc⟩, ?_, ?_, ?_, ?_, ?_, ?_, ?_, ?_, ?_, ?_⟩
  · rw [getField_format_post_of_base pd irc "author" _
      (alookup_base_author (unwrap_post pd))]
    rfl
  · rfl
  · rw [getField_notif_author n]
    rfl
  · intro h1 h2
    rw [getField_format_post_of_base pd irc "likes" _
      (alookup_base_likes (unwrap_post pd)),
      getV_of_not_hasKey _ _ _ h1, getV_of_not_hasKey _ _ _ h2]
  · intro h1 h2
    rw [getField_format_post_of_base pd irc "reposts" _
      (alookup_base_reposts (unwrap_post pd)),
      getV_of_not_hasKey _ _ _ h1, getV_of_not_hasKey _ _ _ h2]
  · intro h1 h2
    rw [getField_format_post_of_base pd irc "replies" _
      (alookup_base_replies (unwrap_post pd)),
      getV_of_not_hasKey _ _ _ h1, getV_of_not_hasKey _ _ _ h2]
  · intro h1 h2
    rw [getField_format_post_of_base pd irc "indexed_at" _
      (alookup_base_indexed_at (unwrap_post pd)),
      getV_of_not_hasKey _ _ _ h1, getV_of_not_hasKey _ _ _ h2]
  · intro h1 h2
    rw [getField_format_post_of_base pd irc "created_at" _
      (alookup_base_created_at (unwrap_post pd)),
      getV_of_not_hasKey _ _ _ h1, getV_of_not_hasKey _ _ _ h2]
  · intro h1 h2
    rw [getField_notif_is_read n,
      getV_of_not_hasKey _ _ _ h1, getV_of_not_hasKey _ _ _ h2]
  · intro h1 h2
    rw [getField_notif_subject_uri n,
      getV_of_not_hasKey _ _ _ h1, getV_of_not_hasKey _ _ _ h2]

/-- C7 witness: a bare object source lacking every field resolves the
counter to 0, the timestamps to `""`, the read flag to `false`, and still
yields the full fixed notification key set. -/
theorem c7_fixed_schema_witness :
    getField (format_post (Val.obj []) false) "likes" = some (Val.int 0)
    ∧ getField (format_post (Val.obj []) false) "created_at" = some (Val.str "")
    ∧ getField (format_notification (Val.obj [])) "is_read" = some (Val.bool false)
    ∧ keysOf (format_notification (Val.obj [])) = notifFixedKeys :=
  have h := c7_fixed_schema (Val.obj []) false (Val.obj [])
  ⟨h.2.2.2.2.1 rfl rfl, h.2.2.2.2.2.2.2.2.1 rfl rfl,
   h.2.2.2.2.2.2.2.2.2.1 rfl rfl, h.2.2.1⟩

/-! ### bluesky_mcp.py: reply thread references, tool envelopes, clamps -/

/-- An AT-protocol strong reference: `{uri, cid}`. -/
structure StrongRef where
  uri : String
  cid : String
deriving DecidableEq

/-- A record-level reply reference: the declared thread root and the
immediate parent. -/
structure ReplyRef where
  root : StrongRef
  parent : StrongRef
deriving DecidableEq

/-- The target post fetched by `client.get_post_thread(post_uri)` and read
as `thread.post`: its identity, its author's handle, and the reply
reference its own record carries, if any (`parent.record.reply`; a record
without the attribute or with a falsy value is modelled as `none`). -/
structure ParentPost where
  uri : String
  cid : String
  author_handle : String
  record_reply : Option ReplyRef

/-- The reply-reference computation of `reply_to_post` (bluesky_mcp.py
lines 292-309): both root and parent default to the target post itself;
when the target's record carries a reply reference, the root is replaced
by that reference's declared root. -/
def compute_reply_ref (parent : ParentPost) : ReplyRef :=
  let base : ReplyRef :=
    ⟨⟨parent.uri, parent.cid⟩, ⟨parent.uri, parent.cid⟩⟩
  match parent.record_reply with
  | some r => { base with root := r.root }
  | none => base

/-- C5: the computed thread-parent reference is always the target post
itself; the computed thread-root is the target post when its record
carries no reply reference, and otherwise the root declared in that reply
reference — one level of upward correction, never recursive. -/
theorem c5_reply_thread_refs (p : ParentPost) :
    (compute_reply_ref p).parent = ⟨p.uri, p.cid⟩
    ∧ (compute_reply_ref p).root =
        (match p.record_reply with
         | none => (⟨p.uri, p.cid⟩ : StrongRef)
         | some r => r.root) := by
  cases h : p.record_reply <;> simp [compute_reply_ref, h]

/-- The corrective instruction string embedded in the failure envelopes of
`send_post` and `reply_to_post`. -/
def shortenInstruction : String :=
  "Text is likely too long. Please shorten it to under 300 characters and try again."

/-- `send_post` (bluesky_mcp.py lines 207-264), abstracted over the remote
call: the `try` body issues one `client.send_post` call (modelled by its
outcome `remote`); on success a success envelope is returned, on any
exception the failure envelope with error category, detail,
`input_length_approx = len(text)`, `limit = 300` and the corrective
instruction.  The whole function never lets the exception escape, hence
the result is always `Except.ok`. -/
def send_post_result (text : String) (remote : Except String StrongRef) :
    Except String Val :=
  Except.ok (match remote with
  | Except.ok post => Val.dict
      [("success", Val.bool true),
       ("uri", Val.str post.uri),
       ("cid", Val.str post.cid),
       ("message", Val.str "Post sent successfully!")]
  | Except.error e => Val.dict
      [("success", Val.bool false),
       ("error", Val.str "Failed to send post"),
       ("details", Val.str e),
       ("input_length_approx", Val.int (text.length : Int)),
       ("limit", Val.int 300),
       ("instruction", Val.str shortenInstruction)])

/-- `reply_to_post` (bluesky_mcp.py lines 267-329), abstracted over its two
remote calls: fetching the target thread (`remote_thread`) and sending the
reply (`remote_send`, which receives the computed reply reference).  Both
calls sit inside the `try`, so either failure is converted into the
failure envelope and the function always returns `Except.ok`. -/
def reply_to_post_result (text : String)
    (remote_thread : Except String ParentPost)
    (remote_send : ReplyRef → Except String StrongRef) :
    Except String Val :=
  Except.ok (match (do
      let parent ← remote_thread
      let post ← remote_send (compute_reply_ref parent)
      pure (parent, post) : Except String (ParentPost × StrongRef)) with
  | Except.ok (parent, post) => Val.dict
      [("success", Val.bool true),
       ("uri", Val.str post.uri),
       ("cid", Val.str post.cid),
       ("replied_to", Val.str parent.author_handle),
       ("message", Val.str ("Replied successfully to @" ++ parent.author_handle ++ "!"))]
  | Except.error e => Val.dict
      [("success", Val.bool false),
       ("error", Val.str "Failed to reply to post"),
       ("details", Val.str e),
       ("input_length_approx", Val.int (text.length : Int)),
       ("limit", Val.int 300),
       ("instruction", Val.str shortenInstruction)])

/-- `like_post` (bluesky_mcp.py lines 470-495), abstracted over its two
remote calls: there is no `try`/`except` in the source, so a failure of
either call propagates out of the tool as an exception (`Except.error`). -/
def like_post_result (post_uri : String)
    (remote_thread : Except String ParentPost)
    (remote_like : StrongRef → Except String StrongRef) :
    Except String Val := do
  let post ← remote_thread
  let like ← remote_like ⟨post.uri, post.cid⟩
  pure (Val.dict
    [("success", Val.bool true),
     ("liked_post", Val.str post_uri),
     ("like_uri", Val.str like.uri),
     ("author", Val.str post.author_handle),
     ("message", Val.str ("Liked @" ++ post.author_handle ++ "'s post!"))])

/-- The envelope held by an `Except.ok` result (`Val.null` on error). -/
def okVal : Except String Val → Val
  | Except.ok v => v
  | Except.error _ => Val.null

/-- C3 counterexample: a remote not-found failure while `like_post`
fetches the target thread propagates out of the tool operation as an
exception instead of being converted into a failure envelope, so the claim
that no remote-call failure propagates out of any tool operation is
false. -/
theorem c3_counterexample :
    like_post_result "at://did:plc:xyz/app.bsky.feed.post/1"
      (Except.error "NotFound") (fun _ => Except.ok ⟨"", ""⟩) =
      Except.error "NotFound" := rfl

/-- C3 amended: the two text-submission operations (`send_post`,
`reply_to_post`) catch every remote failure and return a structured
failure envelope carrying the error category, the underlying detail, the
approximate input length, the 300-character limit and the corrective
instruction; operations without a `try` block, such as `like_post`,
propagate the remote failure as an exception. -/
theorem c3_amended_failure_envelopes (text u e : String)
    (r : Except String StrongRef) (rt : Except String ParentPost)
    (rs : ReplyRef → Except String StrongRef)
    (rl : StrongRef → Except String StrongRef) :
    (∃ v, send_post_result text r = Except.ok v)
    ∧ (∃ v, reply_to_post_result text rt rs = Except.ok v)
    ∧ getField (okVal (send_post_result text (Except.error e))) "error" =
        some (Val.str "Failed to send post")
    ∧ getField (okVal (send_post_result text (Except.error e))) "details" =
        some (Val.str e)
    ∧ getField (okVal (send_post_result text (Except.error e)))
        "input_length_approx" = some (Val.int (text.length : Int))
    ∧ getField (okVal (send_post_result text (Except.error e))) "limit" =
        some (Val.int 300)
    ∧ getField (okVal (send_post_result text (Except.error e))) "instruction" =
        some (Val.str shortenInstruction)
    ∧ getField (okVal (reply_to_post_result text (Except.error e) rs)) "error" =
        some (Val.str "Failed to reply to post")
    ∧ getField (okVal (reply_to_post_result text (Except.error e) rs)) "details" =
        some (Val.str e)
    ∧ getField (okVal (reply_to_post_result text (Except.error e) rs))
        "input_length_approx" = some (Val.int (text.length : Int))
    ∧ getField (okVal (reply_to_post_result text (Except.error e) rs)) "limit" =
        some (Val.int 300)
    ∧ like_post_result u (Except.error e) rl = Except.error e := by
  refine ⟨⟨_, rfl⟩, ⟨_, rfl⟩, ?_, ?_, ?_, ?_, ?_, ?_, ?_, ?_, ?_, rfl⟩ <;>
    simp [send_post_result, reply_to_post_result, okVal, getField, alookup,
      Bind.bind, Except.bind]

/-- `get_timeline` (line 373): `limit=min(limit, 100)` in the remote call. -/
def get_timeline_limit_arg (limit : Int) : Int := min limit 100

/-- `get_author_feed` (line 403): `limit=min(limit, 100)`. -/
def get_author_feed_limit_arg (limit : Int) : Int := min limit 100

/-- `get_notifications` (line 596): `"limit": min(limit, 100)`. -/
def get_notifications_limit_arg (limit : Int) : Int := min limit 100

/-- `search_posts` (line 769): `"limit": min(limit, 100)`. -/
def search_posts_limit_arg (limit : Int) : Int := min limit 100

/-- `search_users` (line 805): `"limit": min(limit, 100)`. -/
def search_users_limit_arg (limit : Int) : Int := min limit 100

/-- `get_post_thread` (line 429): `depth=min(depth, 6)` — the thread-fetch
operation has no page-size parameter; its only clamped parameter is the
reply depth, with maximum 6, not 100. -/
def get_post_thread_depth_arg (depth : Int) : Int := min depth 6

/-- C6 counterexample: a thread fetch requesting 500 issues the remote
call with 6, not 100, so the claim that the thread-page fetch clamps its
size request to 100 is false. -/
theorem c6_counterexample :
    get_post_thread_depth_arg 500 = 6 ∧ get_post_thread_depth_arg 500 ≠ 100 := by
  constructor <;> decide

/-- C6 amended: every listing operation passes `min(limit, 100)` to the
remote call; the thread-fetch operation's depth parameter is instead
clamped to `min(depth, 6)`, so a thread fetch requesting 500 issues the
remote call with 6. -/
theorem c6_amended_clamps (n : Int) :
    get_timeline_limit_arg n = min n 100
    ∧ get_author_feed_limit_arg n = min n 100
    ∧ get_notifications_limit_arg n = min n 100
    ∧ search_posts_limit_arg n = min n 100
    ∧ search_users_limit_arg n = min n 100
    ∧ get_timeline_limit_arg n ≤ 100
    ∧ get_post_thread_depth_arg n = min n 6
    ∧ get_post_thread_depth_arg n ≤ 6
    ∧ get_post_thread_depth_arg 500 = 6 := by
  refine ⟨rfl, rfl, rfl, rfl, rfl, ?_, rfl, ?_, by decide⟩
  · exact min_le_right n 100
  · exact min_le_right n 6

/-- The error message raised by `BlueskyClient.get_client` when a
credential is missing (bluesky_mcp.py lines 66-70). -/
def missingCredError : String :=
  "Missing BLUESKY_HANDLE or BLUESKY_PASSWORD environment variables. Please set them before using this MCP server."

/-- The singleton's login state (`BlueskyClient._logged_in`). -/
structure AuthState where
  logged_in : Bool
deriving DecidableEq

/-- `BlueskyClient.get_client` (bluesky_mcp.py lines 57-75), with the
environment lookups `os.getenv("BLUESKY_HANDLE")` /
`os.getenv("BLUESKY_PASSWORD")` passed in (`none` models an unset
variable; Python treats both `None` and the empty string as falsy in
`if not handle or not password`).  On the missing-credential path a
`ValueError` is raised (`Except.error`); otherwise `client.login` runs and
the state becomes logged-in. -/
def get_client_auth (env_handle env_password : Option String)
    (st : AuthState) : Except String AuthState :=
  if st.logged_in then Except.ok st
  else if env_handle.getD "" = "" ∨ env_password.getD "" = "" then
    Except.error missingCredError
  else Except.ok ⟨true⟩

/-- C8: on first use (not yet logged in), a missing or empty credential
makes obtaining the client raise the descriptive initialization error;
with both credentials present the call succeeds and the handle is
authenticated (the state becomes logged-in). -/
theorem c8_credential_check (h p : Option String) :
    (h.getD "" = "" ∨ p.getD "" = "" →
      get_client_auth h p ⟨false⟩ = Except.error missingCredError)
    ∧ (h.getD "" ≠ "" → p.getD "" ≠ "" →
      get_client_auth h p ⟨false⟩ = Except.ok ⟨true⟩) := by
  constructor
  · intro hmiss
    simp [get_client_auth, hmiss]
  · intro hh hp
    simp [get_client_auth, hh, hp]

/-- C8 witness: with the handle unset the error is raised; with both
credentials set the client is authenticated. -/
theorem c8_credential_check_witness :
    get_client_auth none (some "hunter2") ⟨false⟩ =
      Except.error missingCredError
    ∧ get_client_auth (some "alice.bsky.social") (some "hunter2") ⟨false⟩ =
      Except.ok ⟨true⟩ :=
  ⟨(c8_credential_check none (some "hunter2")).1 (Or.inl rfl),
   (c8_credential_check (some "alice.bsky.social") (some "hunter2")).2
     (by decide) (by decide)⟩

/-- JSON encoding of an optional cursor string (`None` → `null`). -/
def optStrVal : Option String → Val
  | none => Val.null
  | some s => Val.str s

/-- `get_notifications` (bluesky_mcp.py lines 574-617), abstracted over
the remote listing result (`remote_notifs` with next-page cursor
`remote_cursor`): format each notification, apply the optional reason
filter, and in unread-only mode keep only unread items (the
`update_seen` side effect does not touch the returned envelope).  The
envelope's `cursor` field is `notifs.cursor if not unread_only else
None`. -/
def get_notifications_response (remote_notifs : List Val)
    (remote_cursor : Option String) (filter_reason : Option String)
    (unread_only : Bool) : Val :=
  let notifications := remote_notifs.map format_notification
  let notifications := match filter_reason with
    | some r => notifications.filter (fun nn =>
        match getField nn "reason" with
        | some (Val.str s) => s == r
        | _ => false)
    | none => notifications
  let notifications := if unread_only then
      notifications.filter (fun nn => !truthy ((getField nn "is_read").getD Val.null))
    else notifications
  Val.dict
    [("notifications", Val.list notifications),
     ("cursor", if unread_only then Val.null else optStrVal remote_cursor),
     ("count", Val.int (notifications.length : Int))]

/-- C10: with `unread_only` set the returned envelope's cursor is `null`
even when the remote call produced a next-page cursor; with `unread_only`
unset the remote cursor is surfaced unchanged. -/
theorem c10_unread_only_hides_cursor (remote_notifs : List Val)
    (remote_cursor : Option String) (filter_reason : Option String) :
    getField (get_notifications_response remote_notifs remote_cursor
      filter_reason true) "cursor" = some Val.null
    ∧ getField (get_notifications_response remote_notifs remote_cursor
      filter_reason false) "cursor" = some (optStrVal remote_cursor) := by
  constructor <;> simp [get_notifications_response, getField, alookup]
